import Mathlib

/-!
Shallow embedding of the view-scoped capacity-accounting logic of
`src/main.py` (a Flask guest-registration tracker).

The store is a mapping from view name to an ordered list of customer
records, persisted as one JSON file.  Python dicts are insertion-ordered
with unique keys, so the store is embedded as an association list
`List (String × List Customer)`; dict assignment updates the first
matching key in place or appends a new entry, and `del` removes the key.

Python machine details embedded explicitly:
  * `str.strip()` is `pyStrip` (drop leading/trailing whitespace;
    ASCII whitespace only, which covers every string the claims touch);
  * `int(s)` is `pyInt` (optional sign, ASCII digits, single underscores
    between digit groups, surrounding whitespace allowed — Python 3
    `int` on a string; unicode digits are out of scope);
  * Python ints are unbounded, so `amount`/`room` are `Int`.
-/

/-- Model of Python `str.strip()`: drop leading and trailing whitespace. -/
def pyStrip (s : String) : String :=
  ⟨(s.data.dropWhile Char.isWhitespace).rdropWhile Char.isWhitespace⟩

/-- Digit run of a Python integer literal body: `digit+ ('_' digit+)*`,
accumulating the value; an underscore must be followed by a digit. -/
def pyDigitsAux (acc : Nat) : List Char → Option Nat
  | [] => some acc
  | c :: cs =>
    if c.isDigit then pyDigitsAux (acc * 10 + (c.toNat - 48)) cs
    else if c = '_' then
      match cs with
      | c' :: cs' =>
        if c'.isDigit then pyDigitsAux (acc * 10 + (c'.toNat - 48)) cs' else none
      | [] => none
    else none

/-- Nonempty digit run: first char must be a digit (no leading underscore). -/
def pyDigits : List Char → Option Nat
  | [] => none
  | c :: cs => if c.isDigit then pyDigitsAux (c.toNat - 48) cs else none

/-- Model of Python `int(s)` for `s : str`: strips whitespace, then an
optional `+`/`-` sign followed by digits (underscores allowed between
digit groups).  Returns `none` where `int()` raises `ValueError`. -/
def pyInt (s : String) : Option Int :=
  match (pyStrip s).data with
  | '+' :: rest => (pyDigits rest).map Int.ofNat
  | '-' :: rest => (pyDigits rest).map (fun n => -(n : Int))
  | cs => (pyDigits cs).map Int.ofNat

/-- A customer record as appended by `register` in `src/main.py`
(lines 175–182): name, phone, room, amount, arrived flag, second phone. -/
structure Customer where
  name : String
  phone : String
  room : Int
  amount : Int
  arrived : Bool
  second_phone : String
deriving Repr, DecidableEq

/-- `total_people` (src/main.py lines 99–101): sum of `amount` over the
customers of a view. -/
def total_people (data : List Customer) : Int :=
  (data.map Customer.amount).sum

/-- The raw form fields of a POST to `/register`, before stripping. -/
structure RegForm where
  name : String
  phone : String
  room : String
  amount : String
  second_phone : String
deriving Repr, DecidableEq

/-- The flash message of the capacity rejection (src/main.py line 172). -/
def capacityMsg (viewName : String) (total : Int) : String :=
  "Cannot register: total for '" ++ viewName ++ "' would exceed 50 (current "
    ++ toString total ++ ")"

/-- The error outcomes of `register`, carrying the flashed message.
`missingFields` and `nonNumeric` are both ValidationError in the spec's
taxonomy; `policy` is PolicyError; `capacity` is CapacityError. -/
inductive RegError where
  | missingFields (msg : String)
  | nonNumeric (msg : String)
  | policy (msg : String)
  | capacity (msg : String)
deriving Repr, DecidableEq

/-- Whether an error is a ValidationError (missing or non-numeric fields). -/
def RegError.isValidation : RegError → Bool
  | .missingFields _ => true
  | .nonNumeric _ => true
  | _ => false

/-- Whether an error is a CapacityError. -/
def RegError.isCapacity : RegError → Bool
  | .capacity _ => true
  | _ => false

/-- The POST branch of `register` (src/main.py lines 149–185), acting on
the current view's customer list.  Strips the five form fields; rejects
when a required field is empty; parses room and amount as ints; rejects
parties larger than 6 without a second phone; rejects when the view total
would exceed 50; otherwise appends the new customer. -/
def register (viewName : String) (data : List Customer) (form : RegForm) :
    Except RegError (List Customer) :=
  let name := pyStrip form.name
  let phone := pyStrip form.phone
  let room := pyStrip form.room
  let amount := pyStrip form.amount
  let second_phone := pyStrip form.second_phone
  if name = "" ∨ phone = "" ∨ room = "" ∨ amount = "" then
    .error (.missingFields "Please fill all required fields!")
  else
    match pyInt room, pyInt amount with
    | some roomN, some amountN =>
      if amountN > 6 ∧ second_phone = "" then
        .error (.policy "Second phone required for groups larger than 6!")
      else if total_people data + amountN > 50 then
        .error (.capacity (capacityMsg viewName (total_people data)))
      else
        .ok (data ++ [⟨name, phone, roomN, amountN, false, second_phone⟩])
    | _, _ => .error (.nonNumeric "Room and Amount must be numbers!")

/-!
## Store level

`data.json` holds `{viewName: [customer, ...], ...}`.  A Python dict is
an insertion-ordered association list with unique keys.
-/

/-- The store: view name → customer list, in dict insertion order. -/
abbrev Store := List (String × List Customer)

/-- Python dict assignment `d[k] = v`: update the existing key in place,
or append a new entry at the end. -/
def setView (k : String) (v : List Customer) : Store → Store
  | [] => [(k, v)]
  | (k', v') :: rest =>
    if k' = k then (k, v) :: rest else (k', v') :: setView k v rest

/-- Python dict `del d[k]` (keys unique, so filtering is dict deletion). -/
def eraseView (k : String) (s : Store) : Store :=
  s.filter (fun p => p.1 ≠ k)

/-- `load_view_data` / `all_data.get(view_name, [])` at the store level:
the customer list of a view, `[]` when the name is unknown. -/
def getView (s : Store) (name : String) : List Customer :=
  (s.lookup name).getD []

/-- `get_all_views` (src/main.py lines 94–96): the dict's key list. -/
def listViews (s : Store) : List String :=
  s.map Prod.fst

/-- `register` at the store level: run the view-level `register` on the
current view's data, and on success write the view back
(`save_view_data`, src/main.py lines 87–91). -/
def registerStore (s : Store) (viewName : String) (form : RegForm) :
    Except RegError Store :=
  (register viewName (getView s viewName) form).map (fun d => setView viewName d s)

/-- The POST branch of `arrived` (src/main.py lines 195–201), on one
view's list: every customer's `arrived` becomes `name ∈ selected`. -/
def setArrivalsList (data : List Customer) (selected : List String) :
    List Customer :=
  data.map (fun c => { c with arrived := selected.contains c.name })

/-- `arrived` at the store level: rewrite the view and save it. -/
def setArrivalsStore (s : Store) (viewName : String) (selected : List String) :
    Store :=
  setView viewName (setArrivalsList (getView s viewName) selected) s

/-- `delete_all` (src/main.py lines 208–214): replace the view with `[]`. -/
def clearStore (s : Store) (viewName : String) : Store :=
  setView viewName [] s

/-- Error outcomes of `manage_views` (src/main.py lines 223–250). -/
inductive ManageError where
  | emptyName
  | duplicate
  | protectedView
  | notFound
deriving Repr, DecidableEq

/-- The `create` action of `manage_views` (src/main.py lines 223–237):
strip the name, reject an empty name, reject an existing name, else add
an empty view and save. -/
def createView (s : Store) (rawName : String) : Except ManageError Store :=
  let name := pyStrip rawName
  if name = "" then .error .emptyName
  else if (s.lookup name).isSome then .error .duplicate
  else .ok (setView name [] s)

/-- The `delete` action of `manage_views` (src/main.py lines 223–250):
strip the name, reject an empty name; delete when the name exists and is
not "default"; otherwise ProtectedViewError for "default", NotFoundError
for an unknown name (in the code's branch order). -/
def deleteView (s : Store) (rawName : String) : Except ManageError Store :=
  let name := pyStrip rawName
  if name = "" then .error .emptyName
  else if (s.lookup name).isSome ∧ name ≠ "default" then .ok (eraseView name s)
  else if name = "default" then .error .protectedView
  else .error .notFound

/-!
## The public operations as a state machine

Each handler loads the whole store, mutates it, and saves it; a failed
operation redirects without saving, leaving the persisted store as it
was.  `step` is the effect of one request on the persisted store.
-/

/-- One public mutating request. -/
inductive Op where
  | register (view : String) (form : RegForm)
  | setArrivals (view : String) (selected : List String)
  | clear (view : String)
  | createView (name : String)
  | deleteView (name : String)
deriving Repr

/-- Effect of one request on the persisted store (failures save nothing). -/
def step (s : Store) : Op → Store
  | .register v f =>
    match registerStore s v f with
    | .ok s' => s'
    | .error _ => s
  | .setArrivals v sel => setArrivalsStore s v sel
  | .clear v => clearStore s v
  | .createView n =>
    match createView s n with
    | .ok s' => s'
    | .error _ => s
  | .deleteView n =>
    match deleteView s n with
    | .ok s' => s'
    | .error _ => s

/-- The store `load_all_data` yields when `data.json` does not exist
(src/main.py lines 63–65): one empty default view. -/
def initStore : Store := [("default", [])]

/-- Stores reachable from the initial store by public operations. -/
inductive Reachable : Store → Prop
  | init : Reachable initStore
  | step {s : Store} (op : Op) : Reachable s → Reachable (step s op)

/-!
## Persistence model for `load_all_data` / `load_view_data`

`data.json` may be absent, undecodable, or hold any JSON value; the
decoded value is modelled by a small JSON type and the file by
`FileState`.
-/

/-- A decoded JSON value (an object is an ordered key/value list). -/
inductive Json where
  | null
  | bool (b : Bool)
  | num (n : Int)
  | str (s : String)
  | arr (elems : List Json)
  | obj (entries : List (String × Json))

/-- Whether a JSON value is a dictionary. -/
def Json.isDict : Json → Bool
  | .obj _ => true
  | _ => false

/-- The state of `data.json` on disk: missing, present but not decodable
as JSON, or present with a decoded value. -/
inductive FileState where
  | absent
  | invalid (raw : String)
  | valid (j : Json)

/-- `load_all_data` (src/main.py lines 61–72): `{DEFAULT_VIEW: []}` when
the file is absent, fails to decode, or decodes to a non-dict; otherwise
the decoded dict as-is. -/
def load_all_data : FileState → List (String × Json)
  | .absent => [("default", .arr [])]
  | .invalid _ => [("default", .arr [])]
  | .valid j =>
    match j with
    | .obj entries => entries
    | _ => [("default", .arr [])]

/-- `load_view_data` (src/main.py lines 81–84):
`load_all_data().get(view_name, [])`. -/
def load_view_data (f : FileState) (viewName : String) : Json :=
  ((load_all_data f).lookup viewName).getD (.arr [])

/-!
## Helper lemmas
-/

theorem dropWhile_head_false {α : Type} (p : α → Bool) (c : α) (r : List α) :
    ∀ l : List α, l.dropWhile p = c :: r → p c = false := by
  intro l
  induction l with
  | nil => intro h; simp [List.dropWhile] at h
  | cons a t ih =>
    intro h
    by_cases hp : p a = true
    · rw [List.dropWhile_cons_of_pos hp] at h
      exact ih h
    · rw [List.dropWhile_cons_of_neg hp] at h
      cases h
      simpa using hp

theorem pyStrip_idem (s : String) : pyStrip (pyStrip s) = pyStrip s := by
  unfold pyStrip
  congr 1
  set p := Char.isWhitespace with hp
  set m := s.data.dropWhile p with hm
  have h1 : (m.rdropWhile p).dropWhile p = m.rdropWhile p := by
    cases hr : m.rdropWhile p with
    | nil => simp
    | cons c r =>
      have hpre := List.rdropWhile_prefix p m
      rw [hr] at hpre
      obtain ⟨t, ht⟩ := hpre
      have hm2 : s.data.dropWhile p = c :: (r ++ t) := by
        rw [← hm, ← ht]; simp
      have hc : p c = false := dropWhile_head_false p c (r ++ t) s.data hm2
      rw [List.dropWhile_cons_of_neg (by simp [hc])]
  rw [h1, List.rdropWhile_idempotent]

theorem pyInt_pyStrip (s : String) : pyInt (pyStrip s) = pyInt s := by
  unfold pyInt
  rw [pyStrip_idem]

theorem pyInt_empty : pyInt "" = none := rfl

theorem total_people_append (a b : List Customer) :
    total_people (a ++ b) = total_people a + total_people b := by
  simp [total_people]

theorem lookup_setView_self (k : String) (v : List Customer) (s : Store) :
    (setView k v s).lookup k = some v := by
  induction s with
  | nil => simp [setView, List.lookup]
  | cons p rest ih =>
    obtain ⟨k', v'⟩ := p
    by_cases h : k' = k
    · subst h; simp [setView, List.lookup]
    · have hb : (k == k') = false := beq_eq_false_iff_ne.mpr (Ne.symm h)
      simp [setView, h, List.lookup, hb, ih]

theorem lookup_setView_ne (k w : String) (v : List Customer) (s : Store)
    (h : w ≠ k) : (setView k v s).lookup w = s.lookup w := by
  have hb : (w == k) = false := beq_eq_false_iff_ne.mpr h
  induction s with
  | nil => simp [setView, List.lookup, hb]
  | cons p rest ih =>
    obtain ⟨k', v'⟩ := p
    by_cases hk : k' = k
    · subst hk; simp [setView, List.lookup, hb]
    · simp [setView, hk, List.lookup, ih]

theorem getView_setView_self (k : String) (v : List Customer) (s : Store) :
    getView (setView k v s) k = v := by
  simp [getView, lookup_setView_self]

theorem getView_setView_ne (k w : String) (v : List Customer) (s : Store)
    (h : w ≠ k) : getView (setView k v s) w = getView s w := by
  simp [getView, lookup_setView_ne k w v s h]

theorem mem_listViews_setView (n k : String) (v : List Customer) :
    ∀ s : Store, n ∈ listViews s → n ∈ listViews (setView k v s) := by
  intro s
  induction s with
  | nil => intro h; simp [listViews] at h
  | cons p rest ih =>
    intro h
    obtain ⟨k', v'⟩ := p
    simp only [listViews, List.map_cons, List.mem_cons] at h
    by_cases hk : k' = k
    · subst hk
      simpa [setView, listViews] using h
    · simp only [setView, if_neg hk, listViews, List.map_cons, List.mem_cons]
      rcases h with h | h
      · exact Or.inl h
      · exact Or.inr (ih h)

theorem mem_listViews_eraseView (n k : String) (s : Store)
    (hn : n ≠ k) (h : n ∈ listViews s) : n ∈ listViews (eraseView k s) := by
  simp only [listViews, eraseView, List.mem_map, List.mem_filter] at h ⊢
  obtain ⟨p, hp, hpn⟩ := h
  exact ⟨p, ⟨hp, by simpa [hpn] using hn⟩, hpn⟩

theorem register_not_missing (form : RegForm)
    (hn : pyStrip form.name ≠ "") (hp : pyStrip form.phone ≠ "")
    (hr : pyStrip form.room ≠ "") (ha : pyStrip form.amount ≠ "") :
    ¬(pyStrip form.name = "" ∨ pyStrip form.phone = "" ∨ pyStrip form.room = ""
      ∨ pyStrip form.amount = "") := by
  push_neg
  exact ⟨hn, hp, hr, ha⟩

theorem register_policy_case (viewName : String) (data : List Customer) (form : RegForm)
    (roomN amountN : Int)
    (hn : pyStrip form.name ≠ "") (hp : pyStrip form.phone ≠ "")
    (hrne : pyStrip form.room ≠ "") (hane : pyStrip form.amount ≠ "")
    (hr : pyInt (pyStrip form.room) = some roomN)
    (ha : pyInt (pyStrip form.amount) = some amountN)
    (h6 : amountN > 6) (hsp : pyStrip form.second_phone = "") :
    register viewName data form =
      .error (.policy "Second phone required for groups larger than 6!") := by
  simp only [register, hr, ha]
  rw [if_neg (register_not_missing form hn hp hrne hane)]
  rw [if_pos ⟨h6, hsp⟩]

theorem register_capacity_case (viewName : String) (data : List Customer) (form : RegForm)
    (roomN amountN : Int)
    (hn : pyStrip form.name ≠ "") (hp : pyStrip form.phone ≠ "")
    (hrne : pyStrip form.room ≠ "") (hane : pyStrip form.amount ≠ "")
    (hr : pyInt (pyStrip form.room) = some roomN)
    (ha : pyInt (pyStrip form.amount) = some amountN)
    (hpol : ¬(amountN > 6 ∧ pyStrip form.second_phone = ""))
    (hcap : total_people data + amountN > 50) :
    register viewName data form =
      .error (.capacity (capacityMsg viewName (total_people data))) := by
  simp only [register, hr, ha]
  rw [if_neg (register_not_missing form hn hp hrne hane)]
  rw [if_neg hpol, if_pos hcap]

theorem register_ok_case (viewName : String) (data : List Customer) (form : RegForm)
    (roomN amountN : Int)
    (hn : pyStrip form.name ≠ "") (hp : pyStrip form.phone ≠ "")
    (hrne : pyStrip form.room ≠ "") (hane : pyStrip form.amount ≠ "")
    (hr : pyInt (pyStrip form.room) = some roomN)
    (ha : pyInt (pyStrip form.amount) = some amountN)
    (hpol : ¬(amountN > 6 ∧ pyStrip form.second_phone = ""))
    (hcap : ¬(total_people data + amountN > 50)) :
    register viewName data form =
      .ok (data ++ [⟨pyStrip form.name, pyStrip form.phone, roomN, amountN,
        false, pyStrip form.second_phone⟩]) := by
  simp only [register, hr, ha]
  rw [if_neg (register_not_missing form hn hp hrne hane)]
  rw [if_neg hpol, if_neg hcap]

theorem register_ok_inv (viewName : String) (data : List Customer) (form : RegForm)
    (data' : List Customer) (h : register viewName data form = .ok data') :
    ∃ roomN amountN : Int,
      pyInt (pyStrip form.room) = some roomN ∧
      pyInt (pyStrip form.amount) = some amountN ∧
      total_people data + amountN ≤ 50 ∧
      data' = data ++ [⟨pyStrip form.name, pyStrip form.phone, roomN, amountN,
        false, pyStrip form.second_phone⟩] := by
  simp only [register] at h
  split at h
  · exact Except.noConfusion h
  · split at h
    next roomN amountN hr ha =>
      split at h
      · exact Except.noConfusion h
      · split at h
        next hcap => exact Except.noConfusion h
        next hcap =>
          injection h with h'
          exact ⟨roomN, amountN, hr, ha, by omega, h'.symm⟩
    next => exact Except.noConfusion h

theorem register_validation_of_parse_fail (viewName : String) (data : List Customer)
    (form : RegForm)
    (h : pyInt (pyStrip form.room) = none ∨ pyInt (pyStrip form.amount) = none) :
    ∃ msg, (register viewName data form = .error (.missingFields msg) ∨
            register viewName data form = .error (.nonNumeric msg)) := by
  simp only [register]
  by_cases hm : pyStrip form.name = "" ∨ pyStrip form.phone = ""
      ∨ pyStrip form.room = "" ∨ pyStrip form.amount = ""
  · rw [if_pos hm]
    exact ⟨"Please fill all required fields!", Or.inl rfl⟩
  · rw [if_neg hm]
    refine ⟨"Room and Amount must be numbers!", Or.inr ?_⟩
    rcases h with h | h
    · rw [h]
    · rw [h]
      cases pyInt (pyStrip form.room) <;> rfl

theorem registerStore_error (s : Store) (v : String) (form : RegForm) (e : RegError)
    (h : register v (getView s v) form = .error e) :
    registerStore s v form = .error e := by
  simp [registerStore, h, Except.map]

theorem registerStore_ok (s : Store) (v : String) (form : RegForm) (d : List Customer)
    (h : register v (getView s v) form = .ok d) :
    registerStore s v form = .ok (setView v d s) := by
  simp [registerStore, h, Except.map]

theorem registerStore_ok_inv (s : Store) (v : String) (form : RegForm) (s' : Store)
    (h : registerStore s v form = .ok s') :
    ∃ d, register v (getView s v) form = .ok d ∧ s' = setView v d s := by
  cases hreg : register v (getView s v) form with
  | error e => simp [registerStore, hreg, Except.map] at h
  | ok d =>
    refine ⟨d, rfl, ?_⟩
    simp [registerStore, hreg, Except.map] at h
    exact h.symm

theorem step_register_error (s : Store) (v : String) (form : RegForm) (e : RegError)
    (h : register v (getView s v) form = .error e) :
    step s (.register v form) = s := by
  simp [step, registerStore, h, Except.map]

theorem total_people_single (c : Customer) : total_people [c] = c.amount := by
  simp [total_people]

/-- Claim C1: for every view whose current total is at most 50, after any
successful `register` the view's total is still at most 50. -/
theorem C1_total_le_50_after_register (s : Store) (v : String) (form : RegForm)
    (s' : Store) (h50 : total_people (getView s v) ≤ 50)
    (hok : registerStore s v form = .ok s') :
    total_people (getView s' v) ≤ 50 := by
  obtain ⟨d, hreg, hs'⟩ := registerStore_ok_inv s v form s' hok
  obtain ⟨roomN, amountN, hr, ha, hcap, hd⟩ :=
    register_ok_inv v (getView s v) form d hreg
  rw [hs', getView_setView_self, hd, total_people_append, total_people_single]
  exact hcap

/-- Claim C1 witness: registering Alice (amount 3) into the empty default
view succeeds and leaves the total at 3 ≤ 50. -/
theorem C1_witness :
    total_people (getView [("default",
      [⟨"Alice", "123", 101, 3, false, ""⟩])] "default") ≤ 50 :=
  C1_total_le_50_after_register [("default", [])] "default"
    ⟨"Alice", "123", "101", "3", ""⟩
    [("default", [⟨"Alice", "123", 101, 3, false, ""⟩])]
    (by decide) rfl

/-- Claim C2 counterexample: a registration with all fields present and
numeric whose amount would push the total past 50 can still fail with
PolicyError rather than CapacityError, because the second-phone policy
check runs first (amount 10 > 6 with empty second phone, view total 45). -/
theorem C2_counterexample :
    (pyStrip "Bob" ≠ "" ∧ pyStrip "p2" ≠ "" ∧ pyStrip "7" ≠ "" ∧
      pyStrip "10" ≠ "" ∧ pyInt "7" = some 7 ∧ pyInt "10" = some 10 ∧
      total_people [⟨"X", "p1", 1, 45, false, ""⟩] + 10 > 50) ∧
    register "default" [⟨"X", "p1", 1, 45, false, ""⟩]
        ⟨"Bob", "p2", "7", "10", ""⟩ =
      .error (.policy "Second phone required for groups larger than 6!") ∧
    RegError.isCapacity
      (.policy "Second phone required for groups larger than 6!") = false := by
  refine ⟨by decide, ?_, rfl⟩
  rfl

/-- Claim C2 (amended): for every view and every registration whose fields
are present and numeric and which passes the second-phone policy check,
if the view total plus the amount exceeds 50 then register fails with a
CapacityError whose message includes the view's current total, and the
store (hence the view and its total) is unchanged. -/
theorem C2_capacity_error (s : Store) (v : String) (form : RegForm)
    (roomN amountN : Int)
    (hn : pyStrip form.name ≠ "") (hp : pyStrip form.phone ≠ "")
    (hrne : pyStrip form.room ≠ "") (hane : pyStrip form.amount ≠ "")
    (hr : pyInt (pyStrip form.room) = some roomN)
    (ha : pyInt (pyStrip form.amount) = some amountN)
    (hpol : ¬(amountN > 6 ∧ pyStrip form.second_phone = ""))
    (hcap : total_people (getView s v) + amountN > 50) :
    registerStore s v form =
      .error (.capacity (capacityMsg v (total_people (getView s v)))) ∧
    (∃ pre post, capacityMsg v (total_people (getView s v)) =
      pre ++ toString (total_people (getView s v)) ++ post) ∧
    step s (.register v form) = s := by
  have hreg := register_capacity_case v (getView s v) form roomN amountN
    hn hp hrne hane hr ha hpol hcap
  refine ⟨registerStore_error s v form _ hreg, ?_, step_register_error s v form _ hreg⟩
  exact ⟨"Cannot register: total for '" ++ v ++ "' would exceed 50 (current ",
    ")", rfl⟩

/-- Claim C2 witness: the spec scenario — a view at total 48, registering
amount 5 fails with CapacityError naming total 48, and the store keeps
total 48. -/
theorem C2_witness :
    registerStore [("default", [⟨"X", "p1", 1, 48, false, ""⟩])] "default"
        ⟨"B", "p2", "5", "5", ""⟩ =
      .error (.capacity (capacityMsg "default"
        (total_people (getView [("default", [⟨"X", "p1", 1, 48, false, ""⟩])]
          "default")))) ∧
    (∃ pre post, capacityMsg "default"
        (total_people (getView [("default", [⟨"X", "p1", 1, 48, false, ""⟩])]
          "default")) =
      pre ++ toString (total_people
        (getView [("default", [⟨"X", "p1", 1, 48, false, ""⟩])] "default")) ++ post) ∧
    step [("default", [⟨"X", "p1", 1, 48, false, ""⟩])]
      (.register "default" ⟨"B", "p2", "5", "5", ""⟩) =
      [("default", [⟨"X", "p1", 1, 48, false, ""⟩])] :=
  C2_capacity_error [("default", [⟨"X", "p1", 1, 48, false, ""⟩])] "default"
    ⟨"B", "p2", "5", "5", ""⟩ 5 5
    (by decide) (by decide) (by decide) (by decide) (by decide) (by decide)
    (by decide) (by decide)

/-- Claim C3: a registration with required fields present, room and amount
numeric, amount > 6 and empty second phone always fails with PolicyError
and leaves the store unchanged. -/
theorem C3_policy_error (s : Store) (v : String) (form : RegForm)
    (roomN amountN : Int)
    (hn : pyStrip form.name ≠ "") (hp : pyStrip form.phone ≠ "")
    (hrne : pyStrip form.room ≠ "") (hane : pyStrip form.amount ≠ "")
    (hr : pyInt (pyStrip form.room) = some roomN)
    (ha : pyInt (pyStrip form.amount) = some amountN)
    (h6 : amountN > 6) (hsp : pyStrip form.second_phone = "") :
    registerStore s v form =
      .error (.policy "Second phone required for groups larger than 6!") ∧
    step s (.register v form) = s := by
  have hreg := register_policy_case v (getView s v) form roomN amountN
    hn hp hrne hane hr ha h6 hsp
  exact ⟨registerStore_error s v form _ hreg, step_register_error s v form _ hreg⟩

/-- Claim C3 witness: amount 10 with empty second phone is rejected with
PolicyError on the empty default view, which is unchanged. -/
theorem C3_witness :
    registerStore [("default", [])] "default" ⟨"A", "p", "3", "10", ""⟩ =
      .error (.policy "Second phone required for groups larger than 6!") ∧
    step [("default", [])] (.register "default" ⟨"A", "p", "3", "10", ""⟩) =
      [("default", [])] :=
  C3_policy_error [("default", [])] "default" ⟨"A", "p", "3", "10", ""⟩ 3 10
    (by decide) (by decide) (by decide) (by decide) (by decide) (by decide)
    (by decide) (by decide)

/-- Claim C4: when room or amount is a non-empty string that does not
parse as an integer, register fails with a ValidationError (the spec's
kind covering missing and non-numeric fields) and the view's customer
list — indeed the whole store — is exactly what it was before the call. -/
theorem C4_validation_error (s : Store) (v : String) (form : RegForm)
    (h : (form.room ≠ "" ∧ pyInt form.room = none) ∨
         (form.amount ≠ "" ∧ pyInt form.amount = none)) :
    (∃ e, registerStore s v form = .error e ∧ e.isValidation = true) ∧
    getView (step s (.register v form)) v = getView s v ∧
    step s (.register v form) = s := by
  have h' : pyInt (pyStrip form.room) = none ∨ pyInt (pyStrip form.amount) = none := by
    rcases h with ⟨_, h2⟩ | ⟨_, h2⟩
    · exact Or.inl (by rw [pyInt_pyStrip]; exact h2)
    · exact Or.inr (by rw [pyInt_pyStrip]; exact h2)
  obtain ⟨msg, hcase⟩ := register_validation_of_parse_fail v (getView s v) form h'
  rcases hcase with hreg | hreg
  · refine ⟨⟨.missingFields msg, registerStore_error s v form _ hreg, rfl⟩, ?_, ?_⟩
    · rw [step_register_error s v form _ hreg]
    · exact step_register_error s v form _ hreg
  · refine ⟨⟨.nonNumeric msg, registerStore_error s v form _ hreg, rfl⟩, ?_, ?_⟩
    · rw [step_register_error s v form _ hreg]
    · exact step_register_error s v form _ hreg

/-- Claim C4 witness: room "12a" does not parse, so registering fails with
a ValidationError and the default view is untouched. -/
theorem C4_witness :
    ("12a" ≠ "" ∧ pyInt "12a" = none) ∧
    ((∃ e, registerStore [("default", [])] "default"
        ⟨"A", "p", "12a", "3", ""⟩ = .error e ∧ e.isValidation = true) ∧
    getView (step [("default", [])]
      (.register "default" ⟨"A", "p", "12a", "3", ""⟩)) "default" =
      getView [("default", [])] "default" ∧
    step [("default", [])] (.register "default" ⟨"A", "p", "12a", "3", ""⟩) =
      [("default", [])]) :=
  ⟨by decide,
    C4_validation_error [("default", [])] "default" ⟨"A", "p", "12a", "3", ""⟩
      (Or.inl ⟨by decide, by decide⟩)⟩

theorem deleteView_default_protected (s : Store) :
    deleteView s "default" = .error .protectedView := by
  simp only [deleteView]
  rw [show pyStrip "default" = "default" from by decide]
  rw [if_neg (by decide : ¬("default" : String) = "")]
  rw [if_neg (by simp : ¬((s.lookup "default").isSome ∧ ("default" : String) ≠ "default"))]
  rw [if_pos rfl]

theorem createView_ok_inv (s : Store) (n : String) (s' : Store)
    (h : createView s n = .ok s') : s' = setView (pyStrip n) [] s := by
  simp only [createView] at h
  split at h
  · exact Except.noConfusion h
  · split at h
    · exact Except.noConfusion h
    · injection h with h'
      exact h'.symm

theorem deleteView_ok_inv (s : Store) (n : String) (s' : Store)
    (h : deleteView s n = .ok s') :
    s' = eraseView (pyStrip n) s ∧ pyStrip n ≠ "default" := by
  simp only [deleteView] at h
  split at h
  · exact Except.noConfusion h
  · split at h
    next hcond =>
      injection h with h'
      exact ⟨h'.symm, hcond.2⟩
    · split at h
      · exact Except.noConfusion h
      · exact Except.noConfusion h

/-- Claim C5: in every store reachable from the initial store by the
public operations, "default" is among the view names, and deleting
"default" always fails with ProtectedViewError. -/
theorem C5_default_always_present (s : Store) (hs : Reachable s) :
    "default" ∈ listViews s ∧
    deleteView s "default" = .error .protectedView := by
  refine ⟨?_, deleteView_default_protected s⟩
  induction hs with
  | init => simp [initStore, listViews]
  | step op ha ih =>
    rename_i t
    cases op with
    | register v f =>
      cases hreg : registerStore t v f with
      | error e => simpa [step, hreg] using ih
      | ok s' =>
        obtain ⟨d, _, hs'⟩ := registerStore_ok_inv t v f s' hreg
        have hst : step t (.register v f) = setView v d t := by
          simp [step, hreg, hs']
        rw [hst]
        exact mem_listViews_setView "default" v d t ih
    | setArrivals v sel =>
      have hst : step t (.setArrivals v sel) =
          setView v (setArrivalsList (getView t v) sel) t := by
        simp [step, setArrivalsStore]
      rw [hst]
      exact mem_listViews_setView "default" v _ t ih
    | clear v =>
      have hst : step t (.clear v) = setView v [] t := by
        simp [step, clearStore]
      rw [hst]
      exact mem_listViews_setView "default" v [] t ih
    | createView n =>
      cases hc : createView t n with
      | error e => simpa [step, hc] using ih
      | ok s' =>
        have hs' := createView_ok_inv t n s' hc
        have hst : step t (.createView n) = setView (pyStrip n) [] t := by
          simp [step, hc, hs']
        rw [hst]
        exact mem_listViews_setView "default" (pyStrip n) [] t ih
    | deleteView n =>
      cases hd : deleteView t n with
      | error e => simpa [step, hd] using ih
      | ok s' =>
        obtain ⟨hs', hne⟩ := deleteView_ok_inv t n s' hd
        have hst : step t (.deleteView n) = eraseView (pyStrip n) t := by
          simp [step, hd, hs']
        rw [hst]
        exact mem_listViews_eraseView "default" (pyStrip n) t (Ne.symm hne) ih

/-- Claim C5 witness: the initial store contains "default" and refuses to
delete it. -/
theorem C5_witness :
    "default" ∈ listViews initStore ∧
    deleteView initStore "default" = .error .protectedView :=
  C5_default_always_present initStore Reachable.init

theorem contains_eq_decide_mem (l : List String) (a : String) :
    l.contains a = decide (a ∈ l) := by
  by_cases h : a ∈ l <;> simp [h]

/-- Claim C6: after `setArrivals(view, arrivedSet)` the view has the same
customers in the same order, and each customer's `arrived` equals
membership of their name in `arrivedSet`, all other fields unchanged. -/
theorem C6_setArrivals_marks (s : Store) (v : String) (sel : List String) :
    (getView (setArrivalsStore s v sel) v).length = (getView s v).length ∧
    ∀ i : Nat, ∀ c : Customer, (getView s v)[i]? = some c →
      (getView (setArrivalsStore s v sel) v)[i]? =
        some { c with arrived := decide (c.name ∈ sel) } := by
  have hget : getView (setArrivalsStore s v sel) v =
      setArrivalsList (getView s v) sel := by
    simp [setArrivalsStore, getView_setView_self]
  constructor
  · rw [hget]
    simp [setArrivalsList]
  · intro i c hc
    rw [hget]
    simp [setArrivalsList, hc, contains_eq_decide_mem]

/-- Claim C6 witness: on a view holding Alice and Bob, `setArrivals` with
the set {"Alice"} marks Alice arrived and Bob not arrived. -/
theorem C6_witness :
    (getView (setArrivalsStore
        [("default", [⟨"Alice", "1", 1, 2, false, ""⟩,
                      ⟨"Bob", "2", 2, 3, true, ""⟩])]
        "default" ["Alice"]) "default")[0]? =
      some ⟨"Alice", "1", 1, 2, true, ""⟩ ∧
    (getView (setArrivalsStore
        [("default", [⟨"Alice", "1", 1, 2, false, ""⟩,
                      ⟨"Bob", "2", 2, 3, true, ""⟩])]
        "default" ["Alice"]) "default")[1]? =
      some ⟨"Bob", "2", 2, 3, false, ""⟩ :=
  ⟨(C6_setArrivals_marks
      [("default", [⟨"Alice", "1", 1, 2, false, ""⟩, ⟨"Bob", "2", 2, 3, true, ""⟩])]
      "default" ["Alice"]).2 0 ⟨"Alice", "1", 1, 2, false, ""⟩ rfl,
   (C6_setArrivals_marks
      [("default", [⟨"Alice", "1", 1, 2, false, ""⟩, ⟨"Bob", "2", 2, 3, true, ""⟩])]
      "default" ["Alice"]).2 1 ⟨"Bob", "2", 2, 3, true, ""⟩ rfl⟩

theorem lookup_eq_none_of_not_mem_keys {β : Type} (name : String)
    (l : List (String × β)) (h : name ∉ l.map Prod.fst) :
    l.lookup name = none := by
  induction l with
  | nil => rfl
  | cons p rest ih =>
    obtain ⟨k, v⟩ := p
    simp only [List.map_cons, List.mem_cons] at h
    push_neg at h
    obtain ⟨h1, h2⟩ := h
    simp only [List.lookup]
    rw [show (name == k) = false from beq_eq_false_iff_ne.mpr h1]
    exact ih h2

/-- Claim C7: `load_all_data` returns the one-default-view store when the
file is absent, undecodable, or decodes to a non-dict; a decoded dict is
returned as-is; and `load_view_data` yields the empty list for a name
that is not a key of the loaded mapping. -/
theorem C7_load_recovery (raw : String) (j : Json)
    (entries : List (String × Json)) (f : FileState) (name : String)
    (hj : j.isDict = false)
    (hname : name ∉ (load_all_data f).map Prod.fst) :
    load_all_data .absent = [("default", .arr [])] ∧
    load_all_data (.invalid raw) = [("default", .arr [])] ∧
    load_all_data (.valid j) = [("default", .arr [])] ∧
    load_all_data (.valid (.obj entries)) = entries ∧
    load_view_data f name = .arr [] := by
  refine ⟨rfl, rfl, ?_, rfl, ?_⟩
  · cases j with
    | obj e => simp [Json.isDict] at hj
    | null => rfl
    | bool b => rfl
    | num n => rfl
    | str s => rfl
    | arr e => rfl
  · simp [load_view_data, lookup_eq_none_of_not_mem_keys name _ hname]

/-- Claim C7 witness: a file holding the JSON number 3 loads as the
default store, a dict loads as-is, and an unknown view name reads as []. -/
theorem C7_witness :
    load_all_data .absent = [("default", .arr [])] ∧
    load_all_data (.invalid "not json") = [("default", .arr [])] ∧
    load_all_data (.valid (.num 3)) = [("default", .arr [])] ∧
    load_all_data (.valid (.obj [("a", .null)])) = [("a", .null)] ∧
    load_view_data (.valid (.obj [("a", .null)])) "b" = .arr [] :=
  C7_load_recovery "not json" (.num 3) [("a", .null)]
    (.valid (.obj [("a", .null)])) "b" rfl (by simp [load_all_data])

/-- Claim C8: a successful registration into one view leaves every other
view's customer list (and therefore its total) unchanged. -/
theorem C8_register_frame (s s' : Store) (v w : String) (form : RegForm)
    (hw : w ≠ v) (h : registerStore s v form = .ok s') :
    getView s' w = getView s w ∧
    total_people (getView s' w) = total_people (getView s w) := by
  obtain ⟨d, _, hs'⟩ := registerStore_ok_inv s v form s' h
  rw [hs', getView_setView_ne v w d s hw]
  exact ⟨rfl, rfl⟩

/-- Claim C8 witness: after creating "annex", registering into "annex"
succeeds and leaves the "default" view and its total unchanged. -/
theorem C8_witness :
    createView [("default", [⟨"A", "1", 1, 3, false, ""⟩])] "annex" =
      .ok [("default", [⟨"A", "1", 1, 3, false, ""⟩]), ("annex", [])] ∧
    registerStore [("default", [⟨"A", "1", 1, 3, false, ""⟩]), ("annex", [])]
        "annex" ⟨"B", "2", "4", "2", ""⟩ =
      .ok [("default", [⟨"A", "1", 1, 3, false, ""⟩]),
           ("annex", [⟨"B", "2", 4, 2, false, ""⟩])] ∧
    getView [("default", [⟨"A", "1", 1, 3, false, ""⟩]),
             ("annex", [⟨"B", "2", 4, 2, false, ""⟩])] "default" =
      getView [("default", [⟨"A", "1", 1, 3, false, ""⟩]), ("annex", [])]
        "default" ∧
    total_people (getView [("default", [⟨"A", "1", 1, 3, false, ""⟩]),
        ("annex", [⟨"B", "2", 4, 2, false, ""⟩])] "default") =
      total_people (getView [("default", [⟨"A", "1", 1, 3, false, ""⟩]),
        ("annex", [])] "default") :=
  ⟨rfl, rfl,
    C8_register_frame
      [("default", [⟨"A", "1", 1, 3, false, ""⟩]), ("annex", [])]
      [("default", [⟨"A", "1", 1, 3, false, ""⟩]),
       ("annex", [⟨"B", "2", 4, 2, false, ""⟩])]
      "annex" "default" ⟨"B", "2", "4", "2", ""⟩ (by decide) rfl⟩

/-- Claim C9: register has no lower bound on amount — with required fields
present and numeric and the capacity check satisfied, a zero or negative
amount is accepted, the customer is appended, and a negative amount
strictly decreases the view's total. -/
theorem C9_no_lower_bound (s : Store) (v : String) (form : RegForm)
    (roomN amountN : Int)
    (hn : pyStrip form.name ≠ "") (hp : pyStrip form.phone ≠ "")
    (hrne : pyStrip form.room ≠ "") (hane : pyStrip form.amount ≠ "")
    (hr : pyInt (pyStrip form.room) = some roomN)
    (ha : pyInt (pyStrip form.amount) = some amountN)
    (hle : amountN ≤ 0)
    (hcap : total_people (getView s v) + amountN ≤ 50) :
    ∃ s', registerStore s v form = .ok s' ∧
      getView s' v = getView s v ++ [⟨pyStrip form.name, pyStrip form.phone,
        roomN, amountN, false, pyStrip form.second_phone⟩] ∧
      total_people (getView s' v) = total_people (getView s v) + amountN ∧
      (amountN < 0 → total_people (getView s' v) < total_people (getView s v)) := by
  have hpol : ¬(amountN > 6 ∧ pyStrip form.second_phone = "") := by
    rintro ⟨h6, -⟩
    omega
  have hreg := register_ok_case v (getView s v) form roomN amountN
    hn hp hrne hane hr ha hpol (by omega)
  refine ⟨setView v _ s, registerStore_ok s v form _ hreg, ?_, ?_, ?_⟩
  · rw [getView_setView_self]
  · rw [getView_setView_self, total_people_append, total_people_single]
  · intro hneg
    rw [getView_setView_self, total_people_append, total_people_single]
    show total_people (getView s v) + amountN < total_people (getView s v)
    omega

/-- Claim C9 witness: amount "-3" into a view at total 5 succeeds, appends
the customer, and drops the total to 2. -/
theorem C9_witness :
    ∃ s', registerStore [("default", [⟨"X", "1", 1, 5, false, ""⟩])] "default"
        ⟨"N", "p", "2", "-3", ""⟩ = .ok s' ∧
      getView s' "default" =
        getView [("default", [⟨"X", "1", 1, 5, false, ""⟩])] "default" ++
          [⟨pyStrip "N", pyStrip "p", 2, -3, false, pyStrip ""⟩] ∧
      total_people (getView s' "default") =
        total_people (getView [("default", [⟨"X", "1", 1, 5, false, ""⟩])]
          "default") + (-3) ∧
      (-3 < (0 : Int) → total_people (getView s' "default") <
        total_people (getView [("default", [⟨"X", "1", 1, 5, false, ""⟩])]
          "default")) :=
  C9_no_lower_bound [("default", [⟨"X", "1", 1, 5, false, ""⟩])] "default"
    ⟨"N", "p", "2", "-3", ""⟩ 2 (-3)
    (by decide) (by decide) (by decide) (by decide) (by decide) (by decide)
    (by decide) (by decide)

/-- Claim C10: createView and deleteView reject a name that strips to the
empty string before attempting any action, leaving the store unchanged. -/
theorem C10_empty_name_rejected (s : Store) (raw : String)
    (h : pyStrip raw = "") :
    createView s raw = .error .emptyName ∧
    deleteView s raw = .error .emptyName ∧
    step s (.createView raw) = s ∧
    step s (.deleteView raw) = s := by
  refine ⟨?_, ?_, ?_, ?_⟩ <;> simp [createView, deleteView, step, h]

/-- Claim C10 witness: an all-whitespace view name is rejected by both
actions on the initial store, which is unchanged. -/
theorem C10_witness :
    createView initStore "   " = .error .emptyName ∧
    deleteView initStore "   " = .error .emptyName ∧
    step initStore (.createView "   ") = initStore ∧
    step initStore (.deleteView "   ") = initStore :=
  C10_empty_name_rejected initStore "   " (by decide)
